import Mathlib

/-!
Shallow embedding of the Ozodon federated-marketplace hub core, translated
from the Python source:

* `src/services/trust_service.py` — local trust log and damped multi-hop
  trust scoring;
* `src/services/hub_service.py` — offer/trust indexing, seller reputation,
  ranking, replication to peer hubs;
* `src/services/ton_payment.py` — simulated TON escrow payment provider;
* `src/routes/hub.py` — the escrow endpoints (create / confirm / refund).

Modelling conventions. Python floats are modelled as `ℚ`. MongoDB
collections are modelled as Lean lists in natural (insertion) order:
`insert_one` appends, `find_one` takes the first match, `update_one`
rewrites the first match, and `update_one` with `upsert=True` rewrites the
first match or appends. A `$set` update assigns only the fields present in
the update document, leaving the other fields of the matched document
unchanged. Timestamps are modelled as rationals (days since an epoch) where
the code uses `datetime`, and as literal strings where the code stores a
literal string. Raised `HTTPException`s / `ValueError`s become `Except`
results; every state-changing handler returns the (possibly unchanged)
store state alongside its result, so aborting before any write returns the
input state.
-/

namespace Ozodon

/-- A document of the `trust_log` collection written by
`trust_service.add_trust`: source, target, clamped weight, timestamp. -/
structure TrustEdge where
  source : String
  target : String
  weight : ℚ
  timestamp : String
deriving Repr, DecidableEq

/-- `trust_service.add_trust`: builds the trust document with the weight
clamped by `max(0.1, min(1.0, float(weight)))` and a (hard-coded) timestamp
string, then `insert_one`s it into `trust_log` (an append — not an upsert).
Returns the new collection state and the inserted document. -/
def add_trust (log : List TrustEdge) (source target : String) (weight : ℚ) :
    List TrustEdge × TrustEdge :=
  let trust_doc : TrustEdge :=
    { source := source
      target := target
      weight := max (1/10) (min 1 weight)
      timestamp := "2025-04-05T12:00:00Z" }
  (log ++ [trust_doc], trust_doc)

/-- `trust_service.get_direct_trust`: `find_one` on `(source, target)` —
the first matching document in natural order — returning its weight, or
`0.0` when no document matches. -/
def get_direct_trust (log : List TrustEdge) (source target : String) : ℚ :=
  match log.find? (fun e => e.source = source && e.target = target) with
  | some doc => doc.weight
  | none => 0

/-- `trust_service.compute_trust_score`: the depth guard (`depth == 0`)
comes first, then the self-trust case, then the direct-edge short-circuit,
then the damped relay exploration taking the maximum of
`relay_weight * path_trust * 0.8` over outgoing edges whose recursive path
score is positive. The Python `depth` parameter is modelled as `Nat`; all
call sites in the source pass non-negative depths. -/
def compute_trust_score (log : List TrustEdge) : String → String → Nat → ℚ
  | _, _, 0 => 0
  | source, target, depth + 1 =>
    if source = target then 1
    else
      let direct := get_direct_trust log source target
      if 0 < direct then direct
      else
        (log.filter (fun e => e.source = source)).foldl
          (fun total_trust relay =>
            let path_trust := compute_trust_score log relay.target target depth
            if 0 < path_trust then
              max total_trust (relay.weight * path_trust * (4/5))
            else total_trust) 0

/-- An inbound `fedmarket:Trust` activity as consumed by
`hub_service.index_trust`: the `type` discriminator, the `actor`, the
embedded object's `target`, `weight` and optional `issued`, and the
activity's optional `published`. -/
structure TrustActivity where
  type : String
  actor : String
  objTarget : String
  objWeight : ℚ
  objIssued : Option String
  published : Option String
deriving Repr, DecidableEq

/-- A document of the `hub_trust_log` collection written by
`hub_service.index_trust`. -/
structure HubTrustDoc where
  source : String
  target : String
  weight : ℚ
  timestamp : Option String
deriving Repr, DecidableEq

/-- `update_one({"source": s, "target": t}, {"$set": trust}, upsert=True)`
on `hub_trust_log`: rewrite the first document matching `(source, target)`
(the `$set` covers every field of the document), or append when none
matches. -/
def upsertTrust (log : List HubTrustDoc) (t : HubTrustDoc) : List HubTrustDoc :=
  match log with
  | [] => [t]
  | d :: rest =>
    if d.source = t.source ∧ d.target = t.target then t :: rest
    else d :: upsertTrust rest t

/-- Python's `x or y` on an optional string: `None` and the empty string
are both falsy and fall through to `y`. -/
def pyOrStr (a b : Option String) : Option String :=
  match a with
  | some s => if s = "" then b else some s
  | none => b

/-- `hub_service.index_trust`: returns `none` (and leaves the collection
unchanged) unless the activity type is `fedmarket:Trust`; otherwise builds
the trust document — with the object's `weight` taken as-is, unclamped —
and upserts it into `hub_trust_log` keyed on `(source, target)`. -/
def index_trust (log : List HubTrustDoc) (activity : TrustActivity) :
    List HubTrustDoc × Option HubTrustDoc :=
  if activity.type ≠ "fedmarket:Trust" then (log, none)
  else
    let trust : HubTrustDoc :=
      { source := activity.actor
        target := activity.objTarget
        weight := activity.objWeight
        timestamp := pyOrStr activity.objIssued activity.published }
    (upsertTrust log trust, some trust)

/-- The nested `schema:offers` sub-object of an inbound Offer activity's
object; a missing sub-object (`obj.get("schema:offers", {})`) is the
record with both fields absent. -/
structure OfferSub where
  price : Option ℚ
  priceCurrency : Option String
deriving Repr, DecidableEq

/-- The embedded `object` of an inbound Offer activity; a missing object
(`activity.get("object", {})`) is the record with every field absent. -/
structure OfferObject where
  id : Option String
  name : Option String
  description : Option String
  image : Option String
  offers : Option OfferSub
deriving Repr, DecidableEq

/-- An entry of an activity's `tag` list. -/
structure TagItem where
  name : String
deriving Repr, DecidableEq

/-- An inbound Offer activity as consumed by `hub_service.index_offer`. -/
structure OfferActivity where
  id : Option String
  type : String
  actor : String
  object : OfferObject
  tag : List TagItem
  published : Option String
deriving Repr, DecidableEq

/-- A document of the `hub_offers` collection: the normalized product
fields written by `index_offer`, plus the reservation/sale fields written
by the escrow endpoints (absent on a fresh offer — `product.get("reserved")`
is falsy — modelled by the defaults). Times are rationals (days). -/
structure Product where
  id : Option String
  name : String
  description : String
  image : Option String
  price : ℚ
  currency : String
  seller : String
  origin_instance : String
  tags : List String
  published : Option String
  source_activity : OfferActivity
  reserved : Bool := false
  reserved_deal_id : Option String := none
  reserved_by : Option String := none
  reserved_until : Option ℚ := none
  sold : Bool := false
  sold_deal_id : Option String := none
deriving Repr, DecidableEq

/-- The product document built by `index_offer` (hub_service.py lines
46–62). `float(offers_data.get("schema:price", 0))` is modelled as
`Option ℚ` with default `0` (a non-numeric price payload would raise in
the source, out of scope); `actor.split("/")[2]` is modelled with default
`""` when the actor URL has fewer than three `/`-separated components (the
source would raise `IndexError` there). -/
def extractProduct (activity : OfferActivity) : Product :=
  let obj := activity.object
  let offers_data := obj.offers.getD { price := none, priceCurrency := none }
  { id := pyOrStr obj.id activity.id
    name := obj.name.getD ""
    description := obj.description.getD ""
    image := obj.image
    price := offers_data.price.getD 0
    currency := offers_data.priceCurrency.getD "TON"
    seller := activity.actor
    origin_instance := (activity.actor.splitOn "/").getD 2 ""
    tags := activity.tag.map (fun t => t.name.dropWhile (· = '#'))
    published := activity.published
    source_activity := activity }

/-- The `$set` of an `index_offer` update document onto an existing
`hub_offers` document: every normalized field is assigned, and the
reservation/sale fields — absent from the update document — are kept. -/
def setOfferFields (old p : Product) : Product :=
  { p with
    reserved := old.reserved
    reserved_deal_id := old.reserved_deal_id
    reserved_by := old.reserved_by
    reserved_until := old.reserved_until
    sold := old.sold
    sold_deal_id := old.sold_deal_id }

/-- `update_one({"id": k}, {"$set": product}, upsert=True)` on
`hub_offers`: rewrite the first document whose `id` matches, or append
when none matches. -/
def upsertOffer (store : List Product) (p : Product) : List Product :=
  match store with
  | [] => [p]
  | q :: rest =>
    if q.id = p.id then setOfferFields q p :: rest
    else q :: upsertOffer rest p

/-- `hub_service.index_offer`: extract the normalized product and upsert
it into `hub_offers` keyed on `id`; returns the new collection state and
the product document. -/
def index_offer (store : List Product) (activity : OfferActivity) :
    List Product × Product :=
  let product := extractProduct activity
  (upsertOffer store product, product)

/-- An entry of the static hub registry (`hubs.json`):
`{domain: string, active: bool}`. -/
structure HubEntry where
  domain : String
  active : Bool
deriving Repr, DecidableEq

/-- `hub_service.replicate_to_peers`: walk the registry in order and, for
every entry with `active` truthy and `domain` different from this node's
own domain, attempt one delivery to that peer; the `try/except` swallows a
failed delivery (the `Except.error` case) and the loop continues, so the
call itself always returns. The result records each attempted domain with
its delivery outcome. -/
def replicate_to_peers (own_domain : String)
    (deliver : String → Except String Unit) :
    List HubEntry → List (String × Except String Unit)
  | [] => []
  | hub :: rest =>
    if hub.active && hub.domain ≠ own_domain then
      (hub.domain, deliver hub.domain) :: replicate_to_peers own_domain deliver rest
    else
      replicate_to_peers own_domain deliver rest

/-- `hub_service._seller_reputation` with the trust service importable
(the source's optional import resolved): approximate by self-reachability
`compute_trust_score(seller, seller)` at the default depth 3, bound into
`[0, 1]`, then soften toward `0.5` by `0.5 + (score - 0.5) * 0.8`. When
the import failed (`trustAvailable = false`) the neutral `0.5` is
returned. -/
def seller_reputation (trustAvailable : Bool) (log : List TrustEdge)
    (seller : String) : ℚ :=
  if trustAvailable then
    let score := compute_trust_score log seller seller 3
    let bounded := max 0 (min 1 score)
    1/2 + (bounded - 1/2) * (4/5)
  else 1/2

/-- A product as returned by `hub_service.search_products`: the stored
document annotated with `reputation_score` and `rank_score`. -/
structure RankedProduct where
  product : Product
  reputation_score : ℚ
  rank_score : ℚ
deriving Repr, DecidableEq

/-- The ranking stage of `hub_service.search_products` (lines 136–144):
annotate every candidate with the seller's reputation and
`rank_score = price * (1.5 - reputation)`, then sort ascending by
`rank_score` (Python's stable list sort, modelled by the stable
`List.mergeSort`). -/
def rankOffers (trustAvailable : Bool) (log : List TrustEdge)
    (products : List Product) : List RankedProduct :=
  let scored := products.map (fun p =>
    let trust_score := seller_reputation trustAvailable log p.seller
    { product := p
      reputation_score := trust_score
      rank_score := p.price * (3/2 - trust_score) : RankedProduct })
  scored.mergeSort (fun a b => a.rank_score ≤ b.rank_score)

/-- The error taxonomy of the escrow endpoints: an `HTTPException` with
status 400 / 404 / 409, or an uncaught exception (HTTP 500). -/
inductive HErr where
  | badRequest (detail : String)
  | notFound (detail : String)
  | conflict (detail : String)
  | internal (detail : String)
deriving Repr, DecidableEq

/-- The receipt dict returned by the simulated payment provider calls. -/
structure TxReceipt where
  status : String
  deal_id : String
deriving Repr, DecidableEq

/-- `ton_payment.confirm_delivery`: raises `ValueError` on an empty
`deal_id`, else returns the simulated release receipt. -/
def confirm_delivery (deal_id : String) : Except String TxReceipt :=
  if deal_id = "" then .error "deal_id must be provided"
  else .ok { status := "funds_released", deal_id := deal_id }

/-- `ton_payment.request_refund`: raises `ValueError` on an empty
`deal_id`, else returns the simulated refund receipt. -/
def request_refund (deal_id : String) : Except String TxReceipt :=
  if deal_id = "" then .error "deal_id must be provided"
  else .ok { status := "refund_requested", deal_id := deal_id }

/-- `ton_payment.to_nano` (stub): `int(float(amount_ton) * 1_000_000_000)`.
Python's `int()` truncates toward zero; every call site validates
`amount_ton > 0` first, where truncation coincides with the floor used
here. -/
def to_nano (amount_ton : ℚ) : Int := Int.floor (amount_ton * 1000000000)

/-- The wallet address of the stub wallet. -/
def walletAddress : String := "UQ_FAKE_ADDRESS"

/-- The deal id
`f"deal_\x7babs(hash((buyer_address, amount_nano, timeout_days)))%10_000_000\x7d"`:
within one process, a deterministic pure function of the triple — equal
triples always produce the same id. The model keeps exactly that
determinism (collisions of Python's `hash` between distinct triples are
not modelled). -/
def mkDealId (buyer : String) (amount_nano : Int) (timeout_days : Int) :
    String :=
  "deal_" ++ buyer ++ "_" ++ toString amount_nano ++ "_" ++
    toString timeout_days

/-- The dict returned by `TONPaymentService.create_escrow_deal`. -/
structure EscrowDeal where
  deal_id : String
  buyer : String
  seller : String
  amount_ton : ℚ
  amount_nano : Int
  status : String
  timeout_days : Int
  contract_address : String
deriving Repr, DecidableEq

/-- `TONPaymentService.create_escrow_deal`: validates a non-empty buyer
address, a positive amount and a positive timeout (each `raise ValueError`
becomes `Except.error`), then returns the frozen stub deal. The amount
reaches this model already coerced to a number by the route, so the
`float(amount_ton)` re-coercion cannot fail here. -/
def create_escrow_deal (buyer_address : String) (amount_ton : ℚ)
    (timeout_days : Int) : Except String EscrowDeal :=
  if buyer_address = "" then .error "buyer_address must be a non-empty string"
  else if amount_ton ≤ 0 then .error "amount_ton must be positive"
  else if timeout_days ≤ 0 then .error "timeout_days must be a positive integer"
  else
    let amount_nano := to_nano amount_ton
    .ok { deal_id := mkDealId buyer_address amount_nano timeout_days
          buyer := buyer_address
          seller := walletAddress
          amount_ton := amount_ton
          amount_nano := amount_nano
          status := "frozen"
          timeout_days := timeout_days
          contract_address := walletAddress }

/-- A document of the `hub_deals` collection as written by the escrow
endpoints. Times are rationals (days since an epoch); `reserved_until` is
`reserved_at + timeout_days`. -/
structure DealDoc where
  deal_id : String
  status : String
  product_id : String
  seller : Option String
  buyer_address : String
  amount_ton : ℚ
  amount_nano : Int
  timeout_days : Int
  reserved_at : ℚ
  reserved_until : ℚ
  contract_address : Option String
  released_at : Option ℚ := none
  release_tx : Option TxReceipt := none
  refund_at : Option ℚ := none
  refund_tx : Option TxReceipt := none
deriving Repr, DecidableEq

/-- The two collections the escrow endpoints read and write. -/
structure HubState where
  hub_offers : List Product
  hub_deals : List DealDoc
deriving Repr, DecidableEq

/-- The value of a JSON `amount_ton` field: a number, or something
`float()` rejects. -/
inductive AmountField where
  | num (q : ℚ)
  | nonNumeric
deriving Repr, DecidableEq

/-- `float(payload.get("amount_ton"))`: fails on a missing field
(`float(None)` raises) and on a non-numeric value. -/
def parseAmount : Option AmountField → Option ℚ
  | some (.num q) => some q
  | _ => none

/-- The request body of `POST /hub/payments/escrow`. `timeout_days` is
modelled as an optional integer (the source's
`int(payload.get("timeout_days", 7))` coercion of non-integral values is
out of scope for the claims; its default of 7 is kept). -/
structure EscrowPayload where
  product_id : Option String
  buyer_address : Option String
  amount_ton : Option AmountField
  timeout_days : Option Int
deriving Repr, DecidableEq

/-- `find_one({"id": pid})` on `hub_offers`: first match in natural
order. -/
def findOffer (store : List Product) (pid : String) : Option Product :=
  store.find? (fun o => o.id = some pid)

/-- `find_one({"deal_id": id})` on `hub_deals`: first match in natural
order. -/
def findDeal (deals : List DealDoc) (deal_id : String) : Option DealDoc :=
  deals.find? (fun d => d.deal_id = deal_id)

/-- The `$set` of a freshly built deal document onto an existing
`hub_deals` document: every field of the new document is assigned; the
release/refund bookkeeping fields — absent from the update document — are
kept from the matched document. -/
def setDealFields (old d : DealDoc) : DealDoc :=
  { d with
    released_at := old.released_at
    release_tx := old.release_tx
    refund_at := old.refund_at
    refund_tx := old.refund_tx }

/-- `update_one({"deal_id": k}, {"$set": deal_doc}, upsert=True)` on
`hub_deals`: rewrite the first document whose `deal_id` matches, or
append when none matches. -/
def upsertDeal (deals : List DealDoc) (d : DealDoc) : List DealDoc :=
  match deals with
  | [] => [d]
  | e :: rest =>
    if e.deal_id = d.deal_id then setDealFields e d :: rest
    else e :: upsertDeal rest d

/-- `update_one({"id": pid}, ...)` on `hub_offers` (no upsert): apply the
update to the first document whose `id` matches; no-op when none
matches. -/
def updateOffer (store : List Product) (pid : String)
    (f : Product → Product) : List Product :=
  match store with
  | [] => []
  | o :: rest =>
    if o.id = some pid then f o :: rest
    else o :: updateOffer rest pid f

/-- `update_one({"deal_id": id}, ...)` on `hub_deals` (no upsert): apply
the update to the first document whose `deal_id` matches; no-op when none
matches. -/
def updateDeal (deals : List DealDoc) (deal_id : String)
    (f : DealDoc → DealDoc) : List DealDoc :=
  match deals with
  | [] => []
  | d :: rest =>
    if d.deal_id = deal_id then f d :: rest
    else d :: updateDeal rest deal_id f

/-- `POST /hub/payments/escrow` (`routes/hub.py` `create_escrow`):
validate `product_id`, `buyer_address` and `amount_ton` (each raise is a
400 before any read or write), look the product up (404 when absent, 409
when already reserved), call `create_escrow_deal` (a `ValueError` — in
particular a non-positive `timeout_days` — becomes a 400), then persist
the deal in `hub_deals` (upsert keyed on `deal_id`) and mark the offer
reserved. Returns the possibly-updated state with the result; every error
path returns before any write. -/
def create_escrow (s : HubState) (payload : EscrowPayload) (now : ℚ) :
    HubState × Except HErr DealDoc :=
  let timeout_days := payload.timeout_days.getD 7
  match payload.product_id with
  | none => (s, .error (.badRequest "product_id is required"))
  | some product_id =>
    if product_id = "" then (s, .error (.badRequest "product_id is required"))
    else
      match payload.buyer_address with
      | none => (s, .error (.badRequest "buyer_address is required"))
      | some buyer_address =>
        if buyer_address = "" then
          (s, .error (.badRequest "buyer_address is required"))
        else
          match parseAmount payload.amount_ton with
          | none => (s, .error (.badRequest "amount_ton must be a number"))
          | some amount_ton_num =>
            if amount_ton_num ≤ 0 then
              (s, .error (.badRequest "amount_ton must be positive"))
            else
              match findOffer s.hub_offers product_id with
              | none => (s, .error (.notFound "Product not found"))
              | some product =>
                if product.reserved then
                  (s, .error (.conflict "Product already reserved"))
                else
                  match create_escrow_deal buyer_address amount_ton_num
                      timeout_days with
                  | .error e => (s, .error (.badRequest e))
                  | .ok deal =>
                    let reserved_until := now + timeout_days
                    let deal_doc : DealDoc :=
                      { deal_id := deal.deal_id
                        status := deal.status
                        product_id := product_id
                        seller := some product.seller
                        buyer_address := buyer_address
                        amount_ton := amount_ton_num
                        amount_nano := deal.amount_nano
                        timeout_days := timeout_days
                        reserved_at := now
                        reserved_until := reserved_until
                        contract_address := some deal.contract_address }
                    let deals := upsertDeal s.hub_deals deal_doc
                    let offers := updateOffer s.hub_offers product_id
                      (fun o =>
                        { o with
                          reserved := true
                          reserved_deal_id := some deal_doc.deal_id
                          reserved_by := some buyer_address
                          reserved_until := some reserved_until })
                    ({ hub_offers := offers, hub_deals := deals },
                      .ok deal_doc)

/-- `POST /hub/payments/\x7bdeal_id\x7d/confirm` (`confirm_payment`): 404
when the deal is absent, 409 when its status is not `"frozen"`; otherwise
call `confirm_delivery` (its uncaught `ValueError` on an empty id is a
500), set the deal to `"released"`, and clear the offer's reservation
while marking it sold. Returns the re-fetched deal document. -/
def confirm_payment (s : HubState) (deal_id : String) (now : ℚ) :
    HubState × Except HErr (Option DealDoc) :=
  match findDeal s.hub_deals deal_id with
  | none => (s, .error (.notFound "Deal not found"))
  | some deal =>
    if deal.status ≠ "frozen" then
      (s, .error (.conflict "Deal is not in frozen state"))
    else
      match confirm_delivery deal_id with
      | .error e => (s, .error (.internal e))
      | .ok result =>
        let deals := updateDeal s.hub_deals deal_id (fun d =>
          { d with
            status := "released"
            released_at := some now
            release_tx := some result })
        let offers := updateOffer s.hub_offers deal.product_id (fun o =>
          { o with
            reserved := false
            sold := true
            sold_deal_id := some deal_id
            reserved_deal_id := none
            reserved_by := none
            reserved_until := none })
        ({ hub_offers := offers, hub_deals := deals },
          .ok (findDeal deals deal_id))

/-- `POST /hub/payments/\x7bdeal_id\x7d/refund` (`refund_payment`): 404
when the deal is absent, 409 when its status is not `"frozen"`; otherwise
call `request_refund` (uncaught `ValueError` on an empty id is a 500),
set the deal to `"refund_requested"`, and clear the offer's reservation
(`sold` untouched). Returns the re-fetched deal document. -/
def refund_payment (s : HubState) (deal_id : String) (now : ℚ) :
    HubState × Except HErr (Option DealDoc) :=
  match findDeal s.hub_deals deal_id with
  | none => (s, .error (.notFound "Deal not found"))
  | some deal =>
    if deal.status ≠ "frozen" then
      (s, .error (.conflict "Refund is only allowed for frozen deals"))
    else
      match request_refund deal_id with
      | .error e => (s, .error (.internal e))
      | .ok result =>
        let deals := updateDeal s.hub_deals deal_id (fun d =>
          { d with
            status := "refund_requested"
            refund_at := some now
            refund_tx := some result })
        let offers := updateOffer s.hub_offers deal.product_id (fun o =>
          { o with
            reserved := false
            reserved_deal_id := none
            reserved_by := none
            reserved_until := none })
        ({ hub_offers := offers, hub_deals := deals },
          .ok (findDeal deals deal_id))

/-- A sample `hub_deals` document in the terminal `"released"` status,
used to exercise the conflict paths of the escrow endpoints. -/
def sampleReleasedDeal : DealDoc :=
  { deal_id := "d1"
    status := "released"
    product_id := "p1"
    seller := none
    buyer_address := "B"
    amount_ton := 1
    amount_nano := 1000000000
    timeout_days := 7
    reserved_at := 0
    reserved_until := 7
    contract_address := none }

/-- A sample hub state holding only `sampleReleasedDeal`. -/
def sampleReleasedState : HubState :=
  { hub_offers := [], hub_deals := [sampleReleasedDeal] }

/-- A minimal Offer activity, used as the `source_activity` of sample
products. -/
def sampleActivity : OfferActivity :=
  { id := none, type := "Offer", actor := "s",
    object := { id := none, name := none, description := none,
                image := none, offers := none },
    tag := [], published := none }

/-- A minimal unreserved `hub_offers` document with the given id and
price. -/
def plainProduct (pid : String) (price : ℚ) : Product :=
  { id := some pid, name := "", description := "", image := none,
    price := price, currency := "TON", seller := "seller",
    origin_instance := "", tags := [], published := none,
    source_activity := sampleActivity }

/-- An escrow request for the given product by buyer `"B"` for 5 TON with
the default timeout: the deal-id triple `("B", 5000000000, 7)` is the
same for every product, so the generated deal ids collide. -/
def collisionPayload (pid : String) : EscrowPayload :=
  { product_id := some pid, buyer_address := some "B",
    amount_ton := some (.num 5), timeout_days := none }

/-- Initial state for the deal-id collision scenario: two unreserved
products, empty deal store. -/
def collisionState0 : HubState :=
  { hub_offers := [plainProduct "p1" 5, plainProduct "p2" 7],
    hub_deals := [] }

/-- After `createDeal` for `"p1"` by buyer `"B"`, 5 TON, default
timeout. -/
def collisionState1 : HubState :=
  (create_escrow collisionState0 (collisionPayload "p1") 0).1

/-- After a second `createDeal`, for `"p2"`, by the same buyer with the
same amount and timeout — the generated deal id collides with the first
deal's, and the upsert overwrites it. -/
def collisionState2 : HubState :=
  (create_escrow collisionState1 (collisionPayload "p2") 0).1

/-- After `confirm` of the shared deal id. -/
def collisionState3 : HubState :=
  (confirm_payment collisionState2 "deal_B_5000000000_7" 0).1

end Ozodon

namespace Ozodon

/-- `trustScore(a, a, depth)` is `1.0` for every `depth ≥ 1` and `0.0` at
`depth = 0`: the `depth == 0` guard precedes the `source == target`
self-trust case (C4). -/
theorem trust_self_score (log : List TrustEdge) (a : String) (depth : Nat)
    (h : 1 ≤ depth) :
    compute_trust_score log a a depth = 1 ∧ compute_trust_score log a a 0 = 0 := by
  refine ⟨?_, rfl⟩
  match depth, h with
  | d + 1, _ => simp [compute_trust_score]

/-- Witness for `trust_self_score` at a concrete actor and depth. -/
theorem trust_self_score_witness :
    compute_trust_score [] "alice" "alice" 3 = 1 ∧
      compute_trust_score [] "alice" "alice" 0 = 0 :=
  trust_self_score [] "alice" 3 (by decide)

/-- When a positive direct edge exists from `a` to `b` (`a ≠ b`), the trust
score at any depth `≥ 1` is exactly that direct weight: the direct-edge
check short-circuits before any relay exploration (C5). -/
theorem direct_trust_short_circuits (log : List TrustEdge) (a b : String)
    (depth : Nat) (hne : a ≠ b) (hd : 1 ≤ depth)
    (hpos : 0 < get_direct_trust log a b) :
    compute_trust_score log a b depth = get_direct_trust log a b := by
  match depth, hd with
  | d + 1, _ => simp [compute_trust_score, hne, hpos]

/-- Witness for `direct_trust_short_circuits`: a graph with a direct edge
`a → b` of weight `1/2` and a relay path `a → c → b` whose damped product
would be larger — the score is still the direct `1/2`. -/
theorem direct_trust_short_circuits_witness :
    compute_trust_score
        [{ source := "a", target := "b", weight := 1/2,
           timestamp := "2025-04-05T12:00:00Z" },
         { source := "a", target := "c", weight := 1,
           timestamp := "2025-04-05T12:00:00Z" },
         { source := "c", target := "b", weight := 1,
           timestamp := "2025-04-05T12:00:00Z" }] "a" "b" 3 =
      get_direct_trust
        [{ source := "a", target := "b", weight := 1/2,
           timestamp := "2025-04-05T12:00:00Z" },
         { source := "a", target := "c", weight := 1,
           timestamp := "2025-04-05T12:00:00Z" },
         { source := "c", target := "b", weight := 1,
           timestamp := "2025-04-05T12:00:00Z" }] "a" "b" :=
  direct_trust_short_circuits _ "a" "b" 3 (by decide) (by decide)
    (by simp [get_direct_trust, List.find?])

/-- Counterexample to C2: indexing an inbound `fedmarket:Trust` activity
whose payload weight is `5` stores a trust edge of weight `5`, outside
`[0.1, 1.0]` — `index_trust` performs no clamping. -/
theorem index_trust_stores_unclamped_weight :
    (index_trust []
        { type := "fedmarket:Trust", actor := "A", objTarget := "B",
          objWeight := 5, objIssued := none, published := none }).1 =
      [{ source := "A", target := "B", weight := 5, timestamp := none }] ∧
    ¬((1/10 : ℚ) ≤ 5 ∧ (5 : ℚ) ≤ 1) := by
  refine ⟨by simp [index_trust, upsertTrust, pyOrStr], by norm_num⟩

/-- Amended C2: the `add_trust` write path does clamp — the stored weight
is exactly `max (1/10) (min 1 w)`, which always lies in `[0.1, 1.0]`, and
the write is an append of that single document. (The inbound
`index_trust` path stores the payload weight unclamped, as the
counterexample shows.) -/
theorem add_trust_clamps (log : List TrustEdge) (s t : String) (w : ℚ) :
    (add_trust log s t w).2.weight = max (1/10) (min 1 w) ∧
    1/10 ≤ (add_trust log s t w).2.weight ∧
    (add_trust log s t w).2.weight ≤ 1 ∧
    (add_trust log s t w).1 = log ++ [(add_trust log s t w).2] :=
  ⟨rfl, le_max_left _ _, max_le (by norm_num) (min_le_left 1 w), rfl⟩

/-- Counterexample to C3: `add_trust` uses `insert_one`, not an upsert.
After `add_trust "a" "b" (1/2)` and `add_trust "a" "b" (9/10)` the trust
log holds two edges for the pair, and `get_direct_trust` (a `find_one`,
first match in insertion order) returns the first weight `1/2`, not the
later `9/10`. -/
theorem add_trust_not_lww :
    ((add_trust (add_trust [] "a" "b" (1/2)).1 "a" "b" (9/10)).1.filter
        (fun e => e.source = "a" && e.target = "b")).length = 2 ∧
    get_direct_trust (add_trust (add_trust [] "a" "b" (1/2)).1 "a" "b" (9/10)).1
        "a" "b" = 1/2 ∧
    (1/2 : ℚ) ≠ 9/10 := by
  refine ⟨?_, ?_, by norm_num⟩ <;>
    norm_num [add_trust, get_direct_trust, List.find?, List.filter,
      min_def, max_def]

/-- Amended C3: on a store without a prior `(source, target)` edge, two
consecutive `add_trust` calls for the pair leave two stored edges (an
append-log, not an upsert), and `get_direct_trust` then returns the clamp
of the first written weight — first-write-wins on read, not
last-write-wins. -/
theorem add_trust_appends_first_write_wins (log : List TrustEdge)
    (s t : String) (w1 w2 : ℚ)
    (h : log.find? (fun e => e.source = s && e.target = t) = none) :
    (((add_trust (add_trust log s t w1).1 s t w2).1).filter
        (fun e => e.source = s && e.target = t)).length = 2 ∧
    get_direct_trust (add_trust (add_trust log s t w1).1 s t w2).1 s t =
      max (1/10) (min 1 w1) := by
  have hall : ∀ e ∈ log, ¬(e.source = s && e.target = t) = true := by
    intro e he
    exact List.find?_eq_none.mp h e he
  constructor
  · simp only [add_trust, List.append_assoc, List.filter_append,
      List.length_append, List.filter_eq_nil_iff.mpr hall]
    simp
  · simp only [add_trust, get_direct_trust, List.append_assoc,
      List.find?_append, h]
    simp

/-- Witness for `add_trust_appends_first_write_wins` on the empty store
with weights `1/2` then `9/10`. -/
theorem add_trust_appends_first_write_wins_witness :
    (((add_trust (add_trust [] "a" "b" (1/2)).1 "a" "b" (9/10)).1.filter
        (fun e => e.source = "a" && e.target = "b")).length = 2 ∧
    get_direct_trust (add_trust (add_trust [] "a" "b" (1/2)).1 "a" "b" (9/10)).1
        "a" "b" = max (1/10) (min 1 (1/2))) :=
  add_trust_appends_first_write_wins [] "a" "b" (1/2) (9/10) (by simp)

/-- C6: `index_offer` is idempotent — re-indexing the same Offer activity
leaves `hub_offers` unchanged; the record is keyed by the object's id
falling back to the activity's own id; and on a store with no record for
that key, one application leaves exactly one record with the key. -/
theorem index_offer_idempotent (store : List Product)
    (activity : OfferActivity) :
    (index_offer (index_offer store activity).1 activity).1 =
        (index_offer store activity).1 ∧
    (index_offer store activity).2.id =
        pyOrStr activity.object.id activity.id ∧
    (store.filter (fun q => q.id = (extractProduct activity).id) = [] →
      ((index_offer store activity).1.filter
        (fun q => q.id = (extractProduct activity).id)).length = 1) := by
  refine ⟨?_, rfl, ?_⟩
  · simp only [index_offer]
    generalize extractProduct activity = p
    induction store with
    | nil => simp [upsertOffer, setOfferFields]
    | cons q rest ih =>
      by_cases h : q.id = p.id
      · simp [upsertOffer, h, setOfferFields]
      · simp [upsertOffer, h, ih]
  · intro hnone
    simp only [index_offer]
    generalize hp : extractProduct activity = p at hnone ⊢
    induction store with
    | nil => simp [upsertOffer]
    | cons q rest ih =>
      simp only [List.filter_cons] at hnone
      by_cases h : q.id = p.id
      · simp [h] at hnone
      · simp only [upsertOffer, if_neg h, List.filter_cons]
        simp only [decide_eq_true_eq, h, if_false]
        split at hnone
        · simp_all
        · exact ih hnone

/-- Witness for `index_offer_idempotent` on the empty store and a concrete
Offer activity. -/
theorem index_offer_idempotent_witness :
    ((index_offer (index_offer []
        { id := some "act1", type := "Offer",
          actor := "https://a.example/users/s",
          object := { id := some "p1", name := some "Widget",
                      description := none, image := none,
                      offers := some { price := some 5, priceCurrency := none } },
          tag := [{ name := "#sale" }], published := some "2025-04-05" }).1
        { id := some "act1", type := "Offer",
          actor := "https://a.example/users/s",
          object := { id := some "p1", name := some "Widget",
                      description := none, image := none,
                      offers := some { price := some 5, priceCurrency := none } },
          tag := [{ name := "#sale" }], published := some "2025-04-05" }).1 =
      (index_offer []
        { id := some "act1", type := "Offer",
          actor := "https://a.example/users/s",
          object := { id := some "p1", name := some "Widget",
                      description := none, image := none,
                      offers := some { price := some 5, priceCurrency := none } },
          tag := [{ name := "#sale" }], published := some "2025-04-05" }).1) ∧
    ((index_offer []
        { id := some "act1", type := "Offer",
          actor := "https://a.example/users/s",
          object := { id := some "p1", name := some "Widget",
                      description := none, image := none,
                      offers := some { price := some 5, priceCurrency := none } },
          tag := [{ name := "#sale" }], published := some "2025-04-05" }).1.filter
        (fun q => q.id = (extractProduct
            { id := some "act1", type := "Offer",
              actor := "https://a.example/users/s",
              object := { id := some "p1", name := some "Widget",
                          description := none, image := none,
                          offers := some { price := some 5, priceCurrency := none } },
              tag := [{ name := "#sale" }],
              published := some "2025-04-05" }).id)).length = 1 := by
  have h := index_offer_idempotent []
    { id := some "act1", type := "Offer",
      actor := "https://a.example/users/s",
      object := { id := some "p1", name := some "Widget",
                  description := none, image := none,
                  offers := some { price := some 5, priceCurrency := none } },
      tag := [{ name := "#sale" }], published := some "2025-04-05" }
  exact ⟨h.1, h.2.2 (by simp)⟩

/-- C7: the error cases of `POST /hub/payments/escrow`, in the source's
checking order: 400 for a missing/empty `product_id`, then 400 for a
missing/empty `buyer_address`, then 400 for a non-numeric and 400 for a
non-positive `amount_ton`, then 404 when the referenced offer is absent,
then 409 when it is already reserved, then 400 for a non-positive
timeout. Every error result carries the unchanged state `s`, so the deal
store and the offer record are untouched on failure. -/
theorem create_escrow_error_cases (s : HubState) (p : EscrowPayload)
    (now : ℚ) :
    ((p.product_id = none ∨ p.product_id = some "") →
      create_escrow s p now =
        (s, .error (.badRequest "product_id is required"))) ∧
    (∀ pid, p.product_id = some pid → pid ≠ "" →
      (p.buyer_address = none ∨ p.buyer_address = some "") →
      create_escrow s p now =
        (s, .error (.badRequest "buyer_address is required"))) ∧
    (∀ pid buyer, p.product_id = some pid → pid ≠ "" →
      p.buyer_address = some buyer → buyer ≠ "" →
      parseAmount p.amount_ton = none →
      create_escrow s p now =
        (s, .error (.badRequest "amount_ton must be a number"))) ∧
    (∀ pid buyer amt, p.product_id = some pid → pid ≠ "" →
      p.buyer_address = some buyer → buyer ≠ "" →
      parseAmount p.amount_ton = some amt → amt ≤ 0 →
      create_escrow s p now =
        (s, .error (.badRequest "amount_ton must be positive"))) ∧
    (∀ pid buyer amt, p.product_id = some pid → pid ≠ "" →
      p.buyer_address = some buyer → buyer ≠ "" →
      parseAmount p.amount_ton = some amt → 0 < amt →
      findOffer s.hub_offers pid = none →
      create_escrow s p now = (s, .error (.notFound "Product not found"))) ∧
    (∀ pid buyer amt product, p.product_id = some pid → pid ≠ "" →
      p.buyer_address = some buyer → buyer ≠ "" →
      parseAmount p.amount_ton = some amt → 0 < amt →
      findOffer s.hub_offers pid = some product → product.reserved = true →
      create_escrow s p now =
        (s, .error (.conflict "Product already reserved"))) ∧
    (∀ pid buyer amt product, p.product_id = some pid → pid ≠ "" →
      p.buyer_address = some buyer → buyer ≠ "" →
      parseAmount p.amount_ton = some amt → 0 < amt →
      findOffer s.hub_offers pid = some product → product.reserved = false →
      p.timeout_days.getD 7 ≤ 0 →
      create_escrow s p now =
        (s, .error (.badRequest "timeout_days must be a positive integer"))) := by
  refine ⟨?_, ?_, ?_, ?_, ?_, ?_, ?_⟩
  · rintro (h | h) <;> simp [create_escrow, h]
  · rintro pid hpid hne (h | h) <;> simp [create_escrow, hpid, hne, h]
  · intro pid buyer hpid hne hb hbne hamt
    simp [create_escrow, hpid, hne, hb, hbne, hamt]
  · intro pid buyer amt hpid hne hb hbne hamt hle
    simp [create_escrow, hpid, hne, hb, hbne, hamt, hle]
  · intro pid buyer amt hpid hne hb hbne hamt hpos hfind
    simp [create_escrow, hpid, hne, hb, hbne, hamt, not_le.mpr hpos, hfind]
  · intro pid buyer amt product hpid hne hb hbne hamt hpos hfind hres
    simp [create_escrow, hpid, hne, hb, hbne, hamt, not_le.mpr hpos, hfind,
      hres]
  · intro pid buyer amt product hpid hne hb hbne hamt hpos hfind hres htd
    simp [create_escrow, hpid, hne, hb, hbne, hamt, not_le.mpr hpos, hfind,
      hres, create_escrow_deal, htd]

/-- Witness for `create_escrow_error_cases`: on an empty store, a
well-formed request for product `"x"` fails with the 404 and leaves the
state unchanged. -/
theorem create_escrow_error_cases_witness :
    create_escrow { hub_offers := [], hub_deals := [] }
        { product_id := some "x", buyer_address := some "B",
          amount_ton := some (.num 1), timeout_days := none } 0 =
      ({ hub_offers := [], hub_deals := [] },
        .error (.notFound "Product not found")) :=
  (create_escrow_error_cases { hub_offers := [], hub_deals := [] }
      { product_id := some "x", buyer_address := some "B",
        amount_ton := some (.num 1), timeout_days := none }
      0).2.2.2.2.1 "x" "B" 1 rfl (by simp) rfl (by simp) rfl (by norm_num)
    (by simp [findOffer])

/-- Reading back a deal after an id-preserving first-match update yields
the updated first match. -/
theorem findDeal_updateDeal (deals : List DealDoc) (deal_id : String)
    (f : DealDoc → DealDoc) (hf : ∀ d, (f d).deal_id = d.deal_id) :
    findDeal (updateDeal deals deal_id f) deal_id =
      (findDeal deals deal_id).map f := by
  induction deals with
  | nil => rfl
  | cons d rest ih =>
    by_cases h : d.deal_id = deal_id
    · simp [updateDeal, findDeal, h, hf d, List.find?_cons_of_pos]
    · simp only [updateDeal, if_neg h]
      simp only [findDeal, List.find?] at ih ⊢
      simp only [h, decide_eq_true_eq, if_neg h]
      exact ih

/-- C8: terminal deal states are stable. A `confirm` or `refund` succeeds
only when the deal exists in status `"frozen"`; applied to a deal in
`"released"` or `"refund_requested"` each returns the 409 conflict and
leaves the whole state (in particular the deal's status) unchanged; and a
frozen deal transitions to `"released"` under confirm and to
`"refund_requested"` under refund. -/
theorem deal_terminal_states_stable (s : HubState) (deal_id : String)
    (now : ℚ) :
    (∀ v, (confirm_payment s deal_id now).2 = .ok v →
      (findDeal s.hub_deals deal_id).map DealDoc.status = some "frozen") ∧
    (∀ v, (refund_payment s deal_id now).2 = .ok v →
      (findDeal s.hub_deals deal_id).map DealDoc.status = some "frozen") ∧
    (∀ d, findDeal s.hub_deals deal_id = some d →
      d.status = "released" ∨ d.status = "refund_requested" →
      confirm_payment s deal_id now =
          (s, .error (.conflict "Deal is not in frozen state")) ∧
        refund_payment s deal_id now =
          (s, .error (.conflict "Refund is only allowed for frozen deals"))) ∧
    (∀ d, findDeal s.hub_deals deal_id = some d → d.status = "frozen" →
      deal_id ≠ "" →
      (findDeal (confirm_payment s deal_id now).1.hub_deals deal_id).map
          DealDoc.status = some "released" ∧
        (findDeal (refund_payment s deal_id now).1.hub_deals deal_id).map
          DealDoc.status = some "refund_requested") := by
  refine ⟨?_, ?_, ?_, ?_⟩
  · intro v hok
    rcases hd : findDeal s.hub_deals deal_id with _ | d
    · simp [confirm_payment, hd] at hok
    · by_cases hs : d.status = "frozen"
      · show some d.status = some "frozen"
        rw [hs]
      · simp [confirm_payment, hd, hs] at hok
  · intro v hok
    rcases hd : findDeal s.hub_deals deal_id with _ | d
    · simp [refund_payment, hd] at hok
    · by_cases hs : d.status = "frozen"
      · show some d.status = some "frozen"
        rw [hs]
      · simp [refund_payment, hd, hs] at hok
  · intro d hd hterm
    have hs : d.status ≠ "frozen" := by
      rcases hterm with h | h <;> simp [h]
    exact ⟨by simp [confirm_payment, hd, hs],
      by simp [refund_payment, hd, hs]⟩
  · intro d hd hs hne
    constructor
    · have hcd : confirm_delivery deal_id =
          .ok { status := "funds_released", deal_id := deal_id } := by
        simp [confirm_delivery, hne]
      simp only [confirm_payment, hd, hs, ne_eq, not_true_eq_false,
        if_false, hcd]
      rw [findDeal_updateDeal]
      · rw [hd]
        rfl
      · intro x
        rfl
    · have hcd : request_refund deal_id =
          .ok { status := "refund_requested", deal_id := deal_id } := by
        simp [request_refund, hne]
      simp only [refund_payment, hd, hs, ne_eq, not_true_eq_false,
        if_false, hcd]
      rw [findDeal_updateDeal]
      · rw [hd]
        rfl
      · intro x
        rfl

/-- Witness for `deal_terminal_states_stable`: a store holding one
released deal — confirm and refund both return the 409 and leave the
state unchanged. -/
theorem deal_terminal_states_stable_witness :
    confirm_payment sampleReleasedState "d1" 0 =
      (sampleReleasedState,
        .error (.conflict "Deal is not in frozen state")) ∧
    refund_payment sampleReleasedState "d1" 0 =
      (sampleReleasedState,
        .error (.conflict "Refund is only allowed for frozen deals")) :=
  (deal_terminal_states_stable sampleReleasedState "d1" 0).2.2.1
    sampleReleasedDeal
    (by simp [sampleReleasedState, findDeal, sampleReleasedDeal])
    (Or.inl rfl)

/-- C9: replication attempts one delivery to exactly the registry entries
that are `active` and whose domain differs from this node's own domain,
pairing each with its own delivery outcome — so a failed delivery to one
peer removes nothing from the attempts to the others, and the call always
returns (per-peer errors are swallowed into the outcome list). -/
theorem replicate_to_peers_attempts_all (own_domain : String)
    (deliver : String → Except String Unit) (hubs : List HubEntry) :
    replicate_to_peers own_domain deliver hubs =
      (hubs.filter (fun h => h.active && h.domain ≠ own_domain)).map
        (fun h => (h.domain, deliver h.domain)) := by
  induction hubs with
  | nil => rfl
  | cons hub rest ih =>
    simp only [replicate_to_peers, List.filter_cons]
    split
    · rw [List.map_cons, ih]
    · exact ih

/-- The self-trust case of the scorer at any positive depth. -/
theorem compute_trust_score_self_pos (log : List TrustEdge) (a : String)
    (d : Nat) (h : d ≠ 0) : compute_trust_score log a a d = 1 := by
  match d, h with
  | k + 1, _ => simp [compute_trust_score]

/-- With the trust service importable, the seller reputation is `9/10`
for every seller and every trust store: the self-reachability score is
`1`, bounded to `1`, and `1/2 + (1 - 1/2) * (4/5) = 9/10`. -/
theorem seller_reputation_of_available (log : List TrustEdge)
    (s : String) : seller_reputation true log s = 9/10 := by
  have hscore : compute_trust_score log s s 3 = 1 :=
    compute_trust_score_self_pos log s 3 (by decide)
  simp only [seller_reputation, if_true, hscore]
  rw [min_self, max_eq_right zero_le_one]
  norm_num

/-- C10: with the trust service importable, ranking cannot differentiate
sellers — the reputation is `9/10` for every seller and trust-graph
state, every ranked offer's `rank_score` is `(3/5) * price` (i.e. `0.6 *
price`), and the ranking output is a permutation of the annotated
candidates ordered by ascending product price. -/
theorem ranking_reputation_constant_price_order (log : List TrustEdge)
    (ps : List Product) :
    (∀ s, seller_reputation true log s = 9/10) ∧
    (rankOffers true log ps).Perm (ps.map (fun p =>
      ({ product := p, reputation_score := 9/10,
         rank_score := p.price * (3/5) } : RankedProduct))) ∧
    (∀ r ∈ rankOffers true log ps,
      r.reputation_score = 9/10 ∧ r.rank_score = r.product.price * (3/5)) ∧
    (rankOffers true log ps).Pairwise
      (fun a b => a.product.price ≤ b.product.price) := by
  have hrep : ∀ s, seller_reputation true log s = 9/10 :=
    seller_reputation_of_available log
  have hun : rankOffers true log ps =
      (ps.map (fun p =>
        ({ product := p, reputation_score := 9/10,
           rank_score := p.price * (3/5) } : RankedProduct))).mergeSort
        (fun a b => a.rank_score ≤ b.rank_score) := by
    simp only [rankOffers, hrep]
    norm_num
  have hperm := List.mergeSort_perm
    (ps.map (fun p =>
      ({ product := p, reputation_score := 9/10,
         rank_score := p.price * (3/5) } : RankedProduct)))
    (fun a b => a.rank_score ≤ b.rank_score)
  have hmem : ∀ r ∈ rankOffers true log ps,
      r.reputation_score = 9/10 ∧ r.rank_score = r.product.price * (3/5) := by
    intro r hr
    rw [hun] at hr
    obtain ⟨p, hp, rfl⟩ := List.mem_map.mp (hperm.mem_iff.mp hr)
    exact ⟨rfl, rfl⟩
  refine ⟨hrep, ?_, hmem, ?_⟩
  · rw [hun]
    exact hperm
  · have htrans : ∀ a b c : RankedProduct,
        (decide (a.rank_score ≤ b.rank_score)) = true →
        (decide (b.rank_score ≤ c.rank_score)) = true →
        (decide (a.rank_score ≤ c.rank_score)) = true := by
      intro a b c hab hbc
      simp only [decide_eq_true_eq] at *
      exact le_trans hab hbc
    have htotal : ∀ a b : RankedProduct,
        ((decide (a.rank_score ≤ b.rank_score)) ||
          (decide (b.rank_score ≤ a.rank_score))) = true := by
      intro a b
      simp only [Bool.or_eq_true, decide_eq_true_eq]
      exact le_total _ _
    have hsorted := List.sorted_mergeSort htrans htotal
      (ps.map (fun p =>
        ({ product := p, reputation_score := 9/10,
           rank_score := p.price * (3/5) } : RankedProduct)))
    rw [hun]
    refine hsorted.imp_of_mem ?_
    intro a b ha hb hab
    have haf := hmem a (by rw [hun]; exact ha)
    have hbf := hmem b (by rw [hun]; exact hb)
    have h35 : (0:ℚ) < 3/5 := by norm_num
    rw [decide_eq_true_eq, haf.2, hbf.2] at hab
    exact (mul_le_mul_right h35).mp hab

/-- Witness for `ranking_reputation_constant_price_order`: a concrete
element of the ranking output over one product of price 10 carries
reputation `9/10` and rank score `(3/5)` times its price. -/
theorem ranking_reputation_constant_price_order_witness :
    ({ product := plainProduct "w" 10, reputation_score := 9/10,
       rank_score := (plainProduct "w" 10).price * (3/2 - 9/10) } :
      RankedProduct).reputation_score = 9/10 ∧
    ({ product := plainProduct "w" 10, reputation_score := 9/10,
       rank_score := (plainProduct "w" 10).price * (3/2 - 9/10) } :
      RankedProduct).rank_score =
      ({ product := plainProduct "w" 10, reputation_score := 9/10,
         rank_score := (plainProduct "w" 10).price * (3/2 - 9/10) } :
        RankedProduct).product.price * (3/5) :=
  (ranking_reputation_constant_price_order [] [plainProduct "w" 10]).2.2.1
    { product := plainProduct "w" 10, reputation_score := 9/10,
      rank_score := (plainProduct "w" 10).price * (3/2 - 9/10) }
    (by simp [rankOffers, List.mem_mergeSort, seller_reputation_of_available])

/-- C1 fails on the code: a reachable state (empty deal store, two
unreserved products; then `createDeal` for `"p1"` and for `"p2"` with the
same buyer/amount/timeout, then `confirm` of the shared deal id) leaves
offer `"p1"` with `reserved = true` and `reserved_deal_id =
"deal_B_5000000000_7"` while the only deal with that id has status
`"released"` — no `"frozen"` deal matches the reservation. The second
`createDeal` generated the same deterministic deal id (a pure function of
`(buyer_address, amount_nano, timeout_days)`) and its upsert overwrote the
first deal. -/
theorem escrow_collision_breaks_reservation_invariant :
    ((findOffer collisionState3.hub_offers "p1").map fun o =>
      (o.reserved, o.reserved_deal_id)) =
        some (true, some "deal_B_5000000000_7") ∧
    collisionState3.hub_deals.map (fun d => (d.deal_id, d.status)) =
      [("deal_B_5000000000_7", "released")] ∧
    collisionState3.hub_deals.filter
      (fun d => d.deal_id = "deal_B_5000000000_7" && d.status = "frozen") =
      [] := by
  have hnano : to_nano 5 = 5000000000 := by norm_num [to_nano]
  have hmk : mkDealId "B" 5000000000 7 = "deal_B_5000000000_7" := by rfl
  have hp1 : ("p1" : String) ≠ "" := by decide
  have hp2 : ("p2" : String) ≠ "" := by decide
  have hB : ("B" : String) ≠ "" := by decide
  have hD : ("deal_B_5000000000_7" : String) ≠ "" := by decide
  have h12 : ("p1" : String) ≠ "p2" := by decide
  have h21 : ("p2" : String) ≠ "p1" := by decide
  have hRF : ("released" : String) ≠ "frozen" := by decide
  have h1 : collisionState1 =
      { hub_offers :=
          [{ plainProduct "p1" 5 with
              reserved := true,
              reserved_deal_id := some "deal_B_5000000000_7",
              reserved_by := some "B", reserved_until := some 7 },
            plainProduct "p2" 7],
        hub_deals :=
          [{ deal_id := "deal_B_5000000000_7", status := "frozen",
             product_id := "p1", seller := some "seller",
             buyer_address := "B", amount_ton := 5,
             amount_nano := 5000000000, timeout_days := 7,
             reserved_at := 0, reserved_until := 7,
             contract_address := some "UQ_FAKE_ADDRESS" }] } := by
    norm_num [collisionState1, collisionState0, collisionPayload,
      create_escrow, parseAmount, findOffer, create_escrow_deal, hnano,
      hmk, upsertDeal, setDealFields, updateOffer, plainProduct,
      walletAddress, List.find?, hp1, hp2, hB]
  have h2 : collisionState2 =
      { hub_offers :=
          [{ plainProduct "p1" 5 with
              reserved := true,
              reserved_deal_id := some "deal_B_5000000000_7",
              reserved_by := some "B", reserved_until := some 7 },
            { plainProduct "p2" 7 with
              reserved := true,
              reserved_deal_id := some "deal_B_5000000000_7",
              reserved_by := some "B", reserved_until := some 7 }],
        hub_deals :=
          [{ deal_id := "deal_B_5000000000_7", status := "frozen",
             product_id := "p2", seller := some "seller",
             buyer_address := "B", amount_ton := 5,
             amount_nano := 5000000000, timeout_days := 7,
             reserved_at := 0, reserved_until := 7,
             contract_address := some "UQ_FAKE_ADDRESS" }] } := by
    rw [collisionState2, h1]
    norm_num [collisionPayload, create_escrow, parseAmount, findOffer,
      create_escrow_deal, hnano, hmk, upsertDeal, setDealFields,
      updateOffer, plainProduct, walletAddress, List.find?, hp1, hp2, hB,
      h12, h21]
  have h3 : collisionState3 =
      { hub_offers :=
          [{ plainProduct "p1" 5 with
              reserved := true,
              reserved_deal_id := some "deal_B_5000000000_7",
              reserved_by := some "B", reserved_until := some 7 },
            { plainProduct "p2" 7 with
              sold := true,
              sold_deal_id := some "deal_B_5000000000_7" }],
        hub_deals :=
          [{ deal_id := "deal_B_5000000000_7", status := "released",
             product_id := "p2", seller := some "seller",
             buyer_address := "B", amount_ton := 5,
             amount_nano := 5000000000, timeout_days := 7,
             reserved_at := 0, reserved_until := 7,
             contract_address := some "UQ_FAKE_ADDRESS",
             released_at := some 0,
             release_tx := some { status := "funds_released",
                                  deal_id := "deal_B_5000000000_7" } }] } := by
    rw [collisionState3, h2]
    norm_num [confirm_payment, findDeal, confirm_delivery, updateDeal,
      updateOffer, plainProduct, List.find?, hD, h12, h21]
  rw [h3]
  refine ⟨?_, ?_, ?_⟩ <;>
    simp [findOffer, plainProduct, List.find?, h12, h21, hRF]

end Ozodon
